import Mathlib

/-!
Verification of the `aigdb` debugger-session controller against its design
specification.

The development shallowly embeds the two core modules:

* `gdb_controller.py` — the `GDBController` class: transport plumbing
  (`write_mi` / `write_cli`), text rendering (`format_responses`), the
  high-level operations, the `verify_loaded` heuristic, `load_core`, and
  `reapply_target`;
* `ai_agent.py` — the agent tool layer: `_log_and_return`, `_ensure_loaded`,
  `_safe_call`, and the fifteen `@tool` wrappers including the destructive
  command denylist of `tool_run_gdb`.

The debugger subprocess is abstracted as a `Transport`: a deterministic
oracle with hidden state `W` that maps each submitted command string to
either a list of response records or a raised exception (modelled as
`Except String`, the `String` being the Python exception text).  The session
state additionally records the exact sequence of command strings submitted
to the transport (`trace`) so that theorems can speak about which commands
do or do not reach the subprocess, and the agent layer records the emitted
log events in order (`log`).

Python string primitives (`str.strip`, `str.lower`, `str.startswith`,
substring `in`) are modelled by structurally recursive functions over
`List Char` so that every theorem can be evaluated on concrete inputs by
`decide`.  Case folding is modelled on the ASCII range, which covers every
string the code compares against.
-/

namespace AIGDB

/-- Python `str.lower`, restricted to ASCII case folding (every string the
program compares case-insensitively is ASCII). -/
def pyLower (s : String) : String :=
  ⟨s.data.map Char.toLower⟩

/-- The whitespace characters stripped by Python `str.strip()` (ASCII part). -/
def isPySpace (c : Char) : Bool :=
  c = ' ' || c = '\t' || c = '\n' || c = '\r' || c = '\x0b' || c = '\x0c'

/-- Python `str.strip()`: drop leading and trailing whitespace. -/
def pyStrip (s : String) : String :=
  ⟨((s.data.dropWhile isPySpace).reverse.dropWhile isPySpace).reverse⟩

/-- Leading-segment test on character lists (Python `str.startswith`). -/
def isPre : List Char → List Char → Bool
  | [], _ => true
  | _ :: _, [] => false
  | p :: ps, c :: cs => p = c && isPre ps cs

/-- Python `s.startswith(p)`. -/
def startsWithPy (s p : String) : Bool :=
  isPre p.data s.data

/-- Occurrence of `sub` anywhere in a character list. -/
def hasSub (sub : List Char) : List Char → Bool
  | [] => sub.isEmpty
  | c :: cs => isPre sub (c :: cs) || hasSub sub cs

/-- Python substring containment `sub in s`. -/
def containsPy (s sub : String) : Bool :=
  hasSub sub.data s.data

/-- Python `"\n".join(lines)`. -/
def joinLines : List String → String
  | [] => ""
  | [l] => l
  | l :: ls => l ++ "\n" ++ joinLines ls

/-- The payload slot of a pygdbmi response record.  `dictP` carries the
`str()` rendering of a dict payload (a dict rendering is never the empty
string, and dict payloads are appended unconditionally by the source);
`strP` is a plain string payload, appended only when truthy (non-empty). -/
inductive Payload where
  | noneP
  | dictP (rendered : String)
  | strP (s : String)
deriving DecidableEq

/-- One unit of output from the debugger subprocess for one submitted
command: an optional payload and an optional message (`r.get("payload")`,
`r.get("message")` in the source). -/
structure Record where
  payload : Payload
  message : Option String
deriving DecidableEq

/-- The `elif msg:` truthiness test of `format_responses`: a message
contributes its text only when present and non-empty. -/
def extractMsg : Option String → Option String
  | some m => if m = "" then none else some m
  | none => none

/-- The per-record branch of `GDBController.format_responses`:
`if isinstance(payload, dict): … elif payload: … elif msg: …`. -/
def extractLine (r : Record) : Option String :=
  match r.payload with
  | .dictP s => some s
  | .strP s => if s = "" then extractMsg r.message else some s
  | .noneP => extractMsg r.message

/-- `GDBController.format_responses`: collect each record's extracted text
and join one per line; `"(no output)"` when nothing was extracted. -/
def format_responses (responses : List Record) : String :=
  let lines := responses.filterMap extractLine
  if lines.isEmpty then "(no output)" else joinLines lines

/-- The mutable fields of the Python `GDBController` object. -/
structure GDBController where
  loaded : Bool
  exe_path : Option String
  core_path : Option String
deriving DecidableEq

/-- The debugger subprocess, abstracted as a deterministic oracle with
hidden state `W`: submitting a command yields either a list of response
records or a raised exception (its Python message), plus the next hidden
state. -/
structure Transport (W : Type) where
  submit : W → String → Except String (List Record) × W

/-- A session: the controller's fields, the transport's hidden state, and
the exact sequence of command strings submitted to the transport so far. -/
structure SessionState (W : Type) where
  ctrl : GDBController
  world : W
  trace : List String
deriving DecidableEq

deriving instance DecidableEq for Except

variable {W : Type}

/-- `GDBController.write_mi`: submit one command to the transport.  The
command is appended to the submission trace whether or not the transport
raises. -/
def write_mi (T : Transport W) (s : SessionState W) (cmd : String) :
    Except String (List Record) × SessionState W :=
  let p := T.submit s.world cmd
  (p.1, { s with world := p.2, trace := s.trace ++ [cmd] })

/-- The console wrapper built by `write_cli`:
`f'interpreter-exec console "{cli_cmd}"'` (the inner text is inserted
verbatim, unescaped, as in the source). -/
def cliWrap (cli_cmd : String) : String :=
  "interpreter-exec console \"" ++ cli_cmd ++ "\""

/-- `GDBController.write_cli`. -/
def write_cli (T : Transport W) (s : SessionState W) (cli_cmd : String) :
    Except String (List Record) × SessionState W :=
  write_mi T s (cliWrap cli_cmd)

/-- The pattern shared by most operations in the source
(`res = self.write_mi(cmd); return self.format_responses(res)`): submit one
command and render its records; a transport exception propagates. -/
def miRender (T : Transport W) (s : SessionState W) (cmd : String) :
    Except String String × SessionState W :=
  match write_mi T s cmd with
  | (.ok res, s1) => (.ok (format_responses res), s1)
  | (.error e, s1) => (.error e, s1)

/-- `GDBController.run_cli`: render a CLI command's records
(`res = self.write_cli(cmd); return self.format_responses(res)`). -/
def run_cli (T : Transport W) (s : SessionState W) (cmd : String) :
    Except String String × SessionState W :=
  miRender T s (cliWrap cmd)

/-- Update only the `loaded` flag. -/
def setLoaded (s : SessionState W) (b : Bool) : SessionState W :=
  { s with ctrl := { s.ctrl with loaded := b } }

/-- `GDBController.verify_loaded`: probe with `info files` and inspect the
stripped, lowercased rendering for the two not-loaded markers; `False` when
a marker is present or the probe raises, `True` otherwise.  Never raises
(the Python body is wrapped in try/except). -/
def verify_loaded (T : Transport W) (s : SessionState W) :
    Bool × SessionState W :=
  match run_cli T s "info files" with
  | (.error _, s1) => (false, s1)
  | (.ok out, s1) =>
    let txt := pyLower (pyStrip out)
    if containsPy txt "no executable file now" ||
        containsPy txt "no symbol file now" then (false, s1)
    else (true, s1)

/-- The unconditional path-recording step of `load_core`
(`self.exe_path = exe_path; self.core_path = core_path`). -/
def recordPaths (s : SessionState W) (exe_path core_path : String) :
    SessionState W :=
  { s with ctrl := { s.ctrl with exe_path := some exe_path,
                                 core_path := some core_path } }

/-- `GDBController.load_core`: record both paths first, then issue the two
binding commands, then refresh `loaded` from a fresh `verify_loaded`.  A
transport exception propagates (the paths stay recorded). -/
def load_core (T : Transport W) (s : SessionState W)
    (exe_path core_path : String) : Except String String × SessionState W :=
  let s0 : SessionState W := recordPaths s exe_path core_path
  match write_mi T s0 ("-file-exec-and-symbols " ++ exe_path) with
  | (.error e, s1) => (.error e, s1)
  | (.ok out1, s1) =>
    match write_mi T s1 ("-target-select core " ++ core_path) with
    | (.error e, s2) => (.error e, s2)
    | (.ok out2, s2) =>
      let v := verify_loaded T s2
      (.ok (format_responses (out1 ++ out2)), setLoaded v.2 v.1)

/-- `GDBController.thread_info`. -/
def thread_info (T : Transport W) (s : SessionState W) :
    Except String String × SessionState W :=
  miRender T s "-thread-info"

/-- `GDBController.stack_list_frames`: optionally select a thread, then
list frames; the rendered outputs of both commands are combined. -/
def stack_list_frames (T : Transport W) (s : SessionState W)
    (thread_id : Option Int) : Except String String × SessionState W :=
  match thread_id with
  | some tid =>
    match write_mi T s ("-thread-select " ++ toString tid) with
    | (.error e, s1) => (.error e, s1)
    | (.ok out1, s1) =>
      match write_mi T s1 "-stack-list-frames" with
      | (.error e, s2) => (.error e, s2)
      | (.ok out2, s2) => (.ok (format_responses (out1 ++ out2)), s2)
  | none =>
    match write_mi T s "-stack-list-frames" with
    | (.error e, s1) => (.error e, s1)
    | (.ok out, s1) => (.ok (format_responses out), s1)

/-- `GDBController.stack_list_locals`. -/
def stack_list_locals (T : Transport W) (s : SessionState W)
    (all_values : Bool) : Except String String × SessionState W :=
  let flag := if all_values then "--all-values" else "--no-values"
  miRender T s ("-stack-list-variables " ++ flag)

/-- `GDBController.print_expr`. -/
def print_expr (T : Transport W) (s : SessionState W) (expr : String) :
    Except String String × SessionState W :=
  run_cli T s ("print " ++ expr)

/-- `GDBController.get_signal_summary`: two CLI probes, rendered together. -/
def get_signal_summary (T : Transport W) (s : SessionState W) :
    Except String String × SessionState W :=
  match write_cli T s "info signal" with
  | (.error e, s1) => (.error e, s1)
  | (.ok r1, s1) =>
    match write_cli T s1 "info program" with
    | (.error e, s2) => (.error e, s2)
    | (.ok r2, s2) => (.ok (format_responses (r1 ++ r2)), s2)

/-- `GDBController.quit`: best-effort `-gdb-exit`, swallowing any
exception. -/
def quit (T : Transport W) (s : SessionState W) : SessionState W :=
  (write_mi T s "-gdb-exit").2

/-- `GDBController.select_thread`. -/
def select_thread (T : Transport W) (s : SessionState W) (thread_id : Int) :
    Except String String × SessionState W :=
  miRender T s ("-thread-select " ++ toString thread_id)

/-- `GDBController.select_frame`. -/
def select_frame (T : Transport W) (s : SessionState W) (level : Int) :
    Except String String × SessionState W :=
  miRender T s ("-stack-select-frame " ++ toString level)

/-- `GDBController.get_registers`. -/
def get_registers (T : Transport W) (s : SessionState W) :
    Except String String × SessionState W :=
  run_cli T s "info registers"

/-- `GDBController.disassemble_current`: the requested count is clamped to
`max(1, min(count, 256))` before being spliced into the `x/…i $pc`
command (Python default argument: 32). -/
def disassemble_current (T : Transport W) (s : SessionState W) (count : Int) :
    Except String String × SessionState W :=
  let c := max 1 (min count 256)
  run_cli T s ("x/" ++ toString c ++ "i $pc")

/-- `GDBController.memory_read`: clamp the count to `max(1, min(count,
256))`, strip the format token, and issue `x/{count}{fmt} {addr}` (Python
default arguments: count 16, fmt `"bx"`). -/
def memory_read (T : Transport W) (s : SessionState W)
    (addr : String) (count : Int) (fmt : String) :
    Except String String × SessionState W :=
  let c := max 1 (min count 256)
  let f := pyStrip fmt
  run_cli T s ("x/" ++ toString c ++ f ++ " " ++ addr)

/-- `GDBController.info_files`. -/
def info_files (T : Transport W) (s : SessionState W) :
    Except String String × SessionState W :=
  run_cli T s "info files"

/-- `GDBController.info_sharedlibrary`. -/
def info_sharedlibrary (T : Transport W) (s : SessionState W) :
    Except String String × SessionState W :=
  run_cli T s "info sharedlibrary"

/-- `GDBController.bt_full`. -/
def bt_full (T : Transport W) (s : SessionState W) :
    Except String String × SessionState W :=
  run_cli T s "bt full"

/-- `GDBController.info_args`. -/
def info_args (T : Transport W) (s : SessionState W) :
    Except String String × SessionState W :=
  run_cli T s "info args"

/-- `GDBController.info_locals`. -/
def info_locals (T : Transport W) (s : SessionState W) :
    Except String String × SessionState W :=
  run_cli T s "info locals"

/-- Python truthiness of the recorded path fields (`None` and `""` are
falsy). -/
def pathTruthy : Option String → Bool
  | none => false
  | some s => s != ""

/-- `GDBController.reapply_target`: when either recorded path is falsy,
return the literal nothing-to-reapply message without touching the
transport or the state; otherwise replay the two binding commands and
refresh `loaded` exactly as `load_core` does. -/
def reapply_target (T : Transport W) (s : SessionState W) :
    Except String String × SessionState W :=
  match s.ctrl.exe_path, s.ctrl.core_path with
  | some e, some c =>
    if e = "" || c = "" then (.ok "(no recorded exe/core to reapply)", s)
    else
      match write_mi T s ("-file-exec-and-symbols " ++ e) with
      | (.error er, s1) => (.error er, s1)
      | (.ok out1, s1) =>
        match write_mi T s1 ("-target-select core " ++ c) with
        | (.error er, s2) => (.error er, s2)
        | (.ok out2, s2) =>
          let v := verify_loaded T s2
          (.ok (format_responses (out1 ++ out2)), setLoaded v.2 v.1)
  | _, _ => (.ok "(no recorded exe/core to reapply)", s)

/-- Enumeration of every method of the Python `GDBController` class that
touches session state, with its arguments (used to quantify over "any
controller operation"). -/
inductive Op where
  | writeMi (cmd : String)
  | writeCli (cmd : String)
  | loadCore (exe core : String)
  | threadInfo
  | stackListFrames (tid : Option Int)
  | stackListLocals (allValues : Bool)
  | printExpr (e : String)
  | runCliOp (cmd : String)
  | signalSummary
  | quitOp
  | selectThread (tid : Int)
  | selectFrame (lvl : Int)
  | getRegisters
  | disassembleCurrent (n : Int)
  | memoryRead (addr : String) (n : Int) (f : String)
  | infoFiles
  | infoSharedlibrary
  | btFull
  | infoArgs
  | infoLocals
  | verifyLoadedOp
  | reapplyTargetOp

/-- The state transition of each controller operation. -/
def runOp (T : Transport W) : Op → SessionState W → SessionState W
  | .writeMi c, s => (write_mi T s c).2
  | .writeCli c, s => (write_cli T s c).2
  | .loadCore e c, s => (load_core T s e c).2
  | .threadInfo, s => (thread_info T s).2
  | .stackListFrames tid, s => (stack_list_frames T s tid).2
  | .stackListLocals b, s => (stack_list_locals T s b).2
  | .printExpr e, s => (print_expr T s e).2
  | .runCliOp c, s => (run_cli T s c).2
  | .signalSummary, s => (get_signal_summary T s).2
  | .quitOp, s => quit T s
  | .selectThread t, s => (select_thread T s t).2
  | .selectFrame l, s => (select_frame T s l).2
  | .getRegisters, s => (get_registers T s).2
  | .disassembleCurrent n, s => (disassemble_current T s n).2
  | .memoryRead a n f, s => (memory_read T s a n f).2
  | .infoFiles, s => (info_files T s).2
  | .infoSharedlibrary, s => (info_sharedlibrary T s).2
  | .btFull, s => (bt_full T s).2
  | .infoArgs, s => (info_args T s).2
  | .infoLocals, s => (info_locals T s).2
  | .verifyLoadedOp, s => (verify_loaded T s).2
  | .reapplyTargetOp, s => (reapply_target T s).2

/-! ## The agent tool layer (`ai_agent.py`) -/

/-- Agent-side state: the session plus the ordered list of log events
emitted through `on_gdb_log`. -/
structure AgentState (W : Type) where
  sess : SessionState W
  log : List String
deriving DecidableEq

/-- The message `_ensure_loaded` returns when no context is loaded and
recovery is impossible. -/
def notLoadedMsg : String :=
  "尚未加载core。请先使用load_core工具加载可执行文件与core。"

/-- The fixed refusal message of `tool_run_gdb` for denylisted commands. -/
def blockedMsg : String :=
  "命令已阻止：可能清空或改变当前可执行/核心文件上下文。请改用 info/print/bt/x 等查看类命令。"

/-- The log event emitted by `_log_and_return`: `f"[{tag}]\n{text}\n"`. -/
def mkEvent (tag text : String) : String :=
  "[" ++ tag ++ "]\n" ++ text ++ "\n"

/-- The `[restore]` event emitted around `reapply_target` calls. -/
def restoreEvent (text : String) : String :=
  "[restore]\n" ++ text ++ "\n"

/-- The `[blocked]` event emitted when `tool_run_gdb` refuses a command. -/
def blockedEvent (command : String) : String :=
  "[blocked]\n阻止执行可能破坏上下文的命令：" ++ command ++ "\n"

/-- The `[error]` event emitted by `_safe_call` on an exception. -/
def errorEvent (e : String) : String :=
  "[error]\n" ++ e ++ "\n"

/-- `_log_and_return`: emit the tagged event, hand the text back. -/
def log_and_return (a : AgentState W) (tag text : String) :
    String × AgentState W :=
  (text, { a with log := a.log ++ [mkEvent tag text] })

/-- `_ensure_loaded`: the context gate run by every tool except
`load_core`.  Returns the instructional message (as `.ok`) when no usable
context exists, the empty string when the context is usable; an exception
raised by the inner `reapply_target` propagates (as `.error`). -/
def ensure_loaded (T : Transport W) (a : AgentState W) :
    Except String String × AgentState W :=
  if a.sess.ctrl.loaded = false then
    if pathTruthy a.sess.ctrl.exe_path && pathTruthy a.sess.ctrl.core_path then
      match reapply_target T a.sess with
      | (.error e, s1) => (.error e, { a with sess := s1 })
      | (.ok restore_out, s1) =>
        let a1 : AgentState W :=
          { sess := s1, log := a.log ++ [restoreEvent restore_out] }
        let v := verify_loaded T a1.sess
        if v.1 then (.ok "", { sess := setLoaded v.2 true, log := a1.log })
        else (.ok notLoadedMsg, { sess := v.2, log := a1.log })
    else (.ok notLoadedMsg, a)
  else
    let v := verify_loaded T a.sess
    if v.1 then (.ok "", { a with sess := v.2 })
    else
      match reapply_target T v.2 with
      | (.error e, s1) => (.error e, { a with sess := s1 })
      | (.ok restore_out, s1) =>
        (.ok "", { sess := s1, log := a.log ++ [restoreEvent restore_out] })

/-- `_safe_call`: run the wrapped controller call; on success behave as
`_log_and_return`, on exception emit an `[error]` event and return the
inline `(error: …)` text instead of propagating. -/
def safe_call (tag : String)
    (fn : SessionState W → Except String String × SessionState W)
    (a : AgentState W) : Except String String × AgentState W :=
  match fn a.sess with
  | (.ok out, s1) =>
    let r := log_and_return { a with sess := s1 } tag out
    (.ok r.1, r.2)
  | (.error e, s1) =>
    (.ok ("(error: " ++ e ++ ")"), { sess := s1, log := a.log ++ [errorEvent e] })

/-- The destructive-command denylist of `tool_run_gdb` (the source names
the list `dangerous_…es`). -/
def denylist : List String :=
  ["file", "core-file", "symbol-file", "exec-file",
   "target", "attach", "run", "quit"]

/-- The denylist test of `tool_run_gdb`:
`cmd_norm = command.strip().lower()` then
`any(cmd_norm.startswith(p) for p in …)`. -/
def isBlockedCmd (command : String) : Bool :=
  denylist.any (fun p => startsWithPy (pyLower (pyStrip command)) p)

/-- `tool_load_core`: the one ungated tool.  Calls `load_core` directly —
not through `_safe_call` — so a transport exception propagates. -/
def tool_load_core (T : Transport W) (a : AgentState W)
    (exe_path core_path : String) : Except String String × AgentState W :=
  match load_core T a.sess exe_path core_path with
  | (.error e, s1) => (.error e, { a with sess := s1 })
  | (.ok out, s1) =>
    let r := log_and_return { a with sess := s1 } "load_core" out
    (.ok r.1, r.2)

/-- `tool_run_gdb`: gate on `_ensure_loaded`, then apply the denylist, then
forward the raw command through `run_cli` (directly, not `_safe_call`). -/
def tool_run_gdb (T : Transport W) (a : AgentState W) (command : String) :
    Except String String × AgentState W :=
  match ensure_loaded T a with
  | (.error e, a1) => (.error e, a1)
  | (.ok msg, a1) =>
    if msg ≠ "" then (.ok msg, a1)
    else if isBlockedCmd command then
      (.ok blockedMsg, { a1 with log := a1.log ++ [blockedEvent command] })
    else
      match run_cli T a1.sess command with
      | (.error e, s1) => (.error e, { a1 with sess := s1 })
      | (.ok out, s1) =>
        let r := log_and_return { a1 with sess := s1 } "gdb" out
        (.ok r.1, r.2)

/-- `tool_bt` (`backtrace`): gated, calls `stack_list_frames` directly. -/
def tool_bt (T : Transport W) (a : AgentState W) (thread_id : Int) :
    Except String String × AgentState W :=
  match ensure_loaded T a with
  | (.error e, a1) => (.error e, a1)
  | (.ok msg, a1) =>
    if msg ≠ "" then (.ok msg, a1)
    else
      match stack_list_frames T a1.sess (some thread_id) with
      | (.error e, s1) => (.error e, { a1 with sess := s1 })
      | (.ok out, s1) =>
        let r := log_and_return { a1 with sess := s1 } "backtrace" out
        (.ok r.1, r.2)

/-- `tool_locals` (`list_locals`): gated, calls `stack_list_locals`
directly. -/
def tool_locals (T : Transport W) (a : AgentState W) :
    Except String String × AgentState W :=
  match ensure_loaded T a with
  | (.error e, a1) => (.error e, a1)
  | (.ok msg, a1) =>
    if msg ≠ "" then (.ok msg, a1)
    else
      match stack_list_locals T a1.sess true with
      | (.error e, s1) => (.error e, { a1 with sess := s1 })
      | (.ok out, s1) =>
        let r := log_and_return { a1 with sess := s1 } "locals" out
        (.ok r.1, r.2)

/-- `tool_select_thread`: gated, wrapped in `_safe_call`. -/
def tool_select_thread (T : Transport W) (a : AgentState W)
    (thread_id : Int) : Except String String × AgentState W :=
  match ensure_loaded T a with
  | (.error e, a1) => (.error e, a1)
  | (.ok msg, a1) =>
    if msg ≠ "" then (.ok msg, a1)
    else safe_call "select_thread" (fun s => select_thread T s thread_id) a1

/-- `tool_select_frame`: gated, wrapped in `_safe_call`. -/
def tool_select_frame (T : Transport W) (a : AgentState W) (level : Int) :
    Except String String × AgentState W :=
  match ensure_loaded T a with
  | (.error e, a1) => (.error e, a1)
  | (.ok msg, a1) =>
    if msg ≠ "" then (.ok msg, a1)
    else safe_call "select_frame" (fun s => select_frame T s level) a1

/-- `tool_registers`: gated, wrapped in `_safe_call`. -/
def tool_registers (T : Transport W) (a : AgentState W) :
    Except String String × AgentState W :=
  match ensure_loaded T a with
  | (.error e, a1) => (.error e, a1)
  | (.ok msg, a1) =>
    if msg ≠ "" then (.ok msg, a1)
    else safe_call "registers" (fun s => get_registers T s) a1

/-- `tool_disassemble`: gated, wrapped in `_safe_call`. -/
def tool_disassemble (T : Transport W) (a : AgentState W) (count : Int) :
    Except String String × AgentState W :=
  match ensure_loaded T a with
  | (.error e, a1) => (.error e, a1)
  | (.ok msg, a1) =>
    if msg ≠ "" then (.ok msg, a1)
    else safe_call "disassemble" (fun s => disassemble_current T s count) a1

/-- `tool_memory_read`: gated, wrapped in `_safe_call`. -/
def tool_memory_read (T : Transport W) (a : AgentState W)
    (addr : String) (count : Int) (fmt : String) :
    Except String String × AgentState W :=
  match ensure_loaded T a with
  | (.error e, a1) => (.error e, a1)
  | (.ok msg, a1) =>
    if msg ≠ "" then (.ok msg, a1)
    else safe_call "memory" (fun s => memory_read T s addr count fmt) a1

/-- `tool_info_files`: gated, wrapped in `_safe_call`. -/
def tool_info_files (T : Transport W) (a : AgentState W) :
    Except String String × AgentState W :=
  match ensure_loaded T a with
  | (.error e, a1) => (.error e, a1)
  | (.ok msg, a1) =>
    if msg ≠ "" then (.ok msg, a1)
    else safe_call "info_files" (fun s => info_files T s) a1

/-- `tool_sharedlibs`: gated, wrapped in `_safe_call`. -/
def tool_sharedlibs (T : Transport W) (a : AgentState W) :
    Except String String × AgentState W :=
  match ensure_loaded T a with
  | (.error e, a1) => (.error e, a1)
  | (.ok msg, a1) =>
    if msg ≠ "" then (.ok msg, a1)
    else safe_call "sharedlibs" (fun s => info_sharedlibrary T s) a1

/-- `tool_bt_full`: gated, wrapped in `_safe_call`. -/
def tool_bt_full (T : Transport W) (a : AgentState W) :
    Except String String × AgentState W :=
  match ensure_loaded T a with
  | (.error e, a1) => (.error e, a1)
  | (.ok msg, a1) =>
    if msg ≠ "" then (.ok msg, a1)
    else safe_call "bt_full" (fun s => bt_full T s) a1

/-- `tool_info_args`: gated, wrapped in `_safe_call`. -/
def tool_info_args (T : Transport W) (a : AgentState W) :
    Except String String × AgentState W :=
  match ensure_loaded T a with
  | (.error e, a1) => (.error e, a1)
  | (.ok msg, a1) =>
    if msg ≠ "" then (.ok msg, a1)
    else safe_call "info_args" (fun s => info_args T s) a1

/-- `tool_info_locals`: gated, wrapped in `_safe_call`. -/
def tool_info_locals (T : Transport W) (a : AgentState W) :
    Except String String × AgentState W :=
  match ensure_loaded T a with
  | (.error e, a1) => (.error e, a1)
  | (.ok msg, a1) =>
    if msg ≠ "" then (.ok msg, a1)
    else safe_call "info_locals" (fun s => info_locals T s) a1

/-- `tool_thread_info`: gated, wrapped in `_safe_call`. -/
def tool_thread_info (T : Transport W) (a : AgentState W) :
    Except String String × AgentState W :=
  match ensure_loaded T a with
  | (.error e, a1) => (.error e, a1)
  | (.ok msg, a1) =>
    if msg ≠ "" then (.ok msg, a1)
    else safe_call "thread_info" (fun s => thread_info T s) a1

/-- Enumeration of the fifteen agent tools with their arguments: the
Operation Catalog as exposed to the orchestration layer. -/
inductive Tool where
  | loadCoreT (exe core : String)
  | runGdbT (command : String)
  | backtraceT (tid : Int)
  | listLocalsT
  | selectThreadT (tid : Int)
  | selectFrameT (lvl : Int)
  | registersT
  | disassembleT (n : Int)
  | memoryReadT (addr : String) (n : Int) (f : String)
  | infoFilesT
  | sharedlibsT
  | btFullT
  | infoArgsT
  | infoLocalsT
  | threadInfoT

/-- Dispatch a tool invocation. -/
def runTool (T : Transport W) : Tool → AgentState W →
    Except String String × AgentState W
  | .loadCoreT e c, a => tool_load_core T a e c
  | .runGdbT cmd, a => tool_run_gdb T a cmd
  | .backtraceT tid, a => tool_bt T a tid
  | .listLocalsT, a => tool_locals T a
  | .selectThreadT tid, a => tool_select_thread T a tid
  | .selectFrameT lvl, a => tool_select_frame T a lvl
  | .registersT, a => tool_registers T a
  | .disassembleT n, a => tool_disassemble T a n
  | .memoryReadT addr n f, a => tool_memory_read T a addr n f
  | .infoFilesT, a => tool_info_files T a
  | .sharedlibsT, a => tool_sharedlibs T a
  | .btFullT, a => tool_bt_full T a
  | .infoArgsT, a => tool_info_args T a
  | .infoLocalsT, a => tool_info_locals T a
  | .threadInfoT, a => tool_thread_info T a

/-- Which tools run their controller call through `_safe_call` (the four
others — `load_core`, `run_gdb`, `backtrace`, `list_locals` — call the
controller directly). -/
def safeTool : Tool → Bool
  | .loadCoreT _ _ => false
  | .runGdbT _ => false
  | .backtraceT _ => false
  | .listLocalsT => false
  | _ => true

/-- Which tools are gated by `_ensure_loaded` (all but `load_core`). -/
def gatedTool : Tool → Bool
  | .loadCoreT _ _ => false
  | _ => true

/-- The log tag each tool passes to `_log_and_return` / `_safe_call`. -/
def toolTag : Tool → String
  | .loadCoreT _ _ => "load_core"
  | .runGdbT _ => "gdb"
  | .backtraceT _ => "backtrace"
  | .listLocalsT => "locals"
  | .selectThreadT _ => "select_thread"
  | .selectFrameT _ => "select_frame"
  | .registersT => "registers"
  | .disassembleT _ => "disassemble"
  | .memoryReadT _ _ _ => "memory"
  | .infoFilesT => "info_files"
  | .sharedlibsT => "sharedlibs"
  | .btFullT => "bt_full"
  | .infoArgsT => "info_args"
  | .infoLocalsT => "info_locals"
  | .threadInfoT => "thread_info"

/-- The controller call at the heart of each tool (what runs once the gate
and, for `run_gdb`, the denylist have been passed). -/
def toolBody (T : Transport W) : Tool → SessionState W →
    Except String String × SessionState W
  | .loadCoreT e c, s => load_core T s e c
  | .runGdbT cmd, s => run_cli T s cmd
  | .backtraceT tid, s => stack_list_frames T s (some tid)
  | .listLocalsT, s => stack_list_locals T s true
  | .selectThreadT tid, s => select_thread T s tid
  | .selectFrameT lvl, s => select_frame T s lvl
  | .registersT, s => get_registers T s
  | .disassembleT n, s => disassemble_current T s n
  | .memoryReadT addr n f, s => memory_read T s addr n f
  | .infoFilesT, s => info_files T s
  | .sharedlibsT, s => info_sharedlibrary T s
  | .btFullT, s => bt_full T s
  | .infoArgsT, s => info_args T s
  | .infoLocalsT, s => info_locals T s
  | .threadInfoT, s => thread_info T s

/-! ## Concrete fixtures (transports over the trivial hidden state `Unit`)
used to instantiate theorems with hypotheses and to refute claims. -/

/-- A record carrying only a console message. -/
def msgRecord (m : String) : Record := ⟨Payload.noneP, some m⟩

/-- A healthy transport: every command succeeds with output `ok`. -/
def T0 : Transport Unit := ⟨fun _ _ => (.ok [msgRecord "ok"], ())⟩

/-- A dead transport: every command raises `boom`. -/
def Terr : Transport Unit := ⟨fun _ _ => (.error "boom", ())⟩

/-- A transport whose debugger has lost its target: every command answers
with the `No executable file now.` marker, so `verify_loaded` is always
false. -/
def Tlost : Transport Unit :=
  ⟨fun _ _ => (.ok [msgRecord "No executable file now."], ())⟩

/-- A freshly constructed session: nothing loaded, no paths recorded. -/
def aFresh : AgentState Unit := ⟨⟨⟨false, none, none⟩, (), []⟩, []⟩

/-- A session that believes a context is loaded, with both paths
recorded. -/
def aLoaded : AgentState Unit :=
  ⟨⟨⟨true, some "/bin/app", some "/tmp/core.1234"⟩, (), []⟩, []⟩

/-- A session with a stale `loaded` flag and no recorded paths. -/
def aLoadedNoPaths : AgentState Unit := ⟨⟨⟨true, none, none⟩, (), []⟩, []⟩

/-! ## Basic lemmas about the transport plumbing -/

theorem write_mi_ctrl (T : Transport W) (s : SessionState W) (cmd : String) :
    ((write_mi T s cmd).2).ctrl = s.ctrl := rfl

theorem write_mi_trace (T : Transport W) (s : SessionState W) (cmd : String) :
    ((write_mi T s cmd).2).trace = s.trace ++ [cmd] := rfl

theorem miRender_snd (T : Transport W) (s : SessionState W) (cmd : String) :
    (miRender T s cmd).2 = (write_mi T s cmd).2 := by
  unfold miRender
  rcases h : write_mi T s cmd with ⟨res, s1⟩
  cases res <;> simp

theorem miRender_ctrl (T : Transport W) (s : SessionState W) (cmd : String) :
    ((miRender T s cmd).2).ctrl = s.ctrl := by
  rw [miRender_snd, write_mi_ctrl]

theorem miRender_trace (T : Transport W) (s : SessionState W) (cmd : String) :
    ((miRender T s cmd).2).trace = s.trace ++ [cmd] := by
  rw [miRender_snd, write_mi_trace]

theorem run_cli_snd (T : Transport W) (s : SessionState W) (cmd : String) :
    (run_cli T s cmd).2 = (write_mi T s (cliWrap cmd)).2 :=
  miRender_snd T s (cliWrap cmd)

theorem run_cli_ctrl (T : Transport W) (s : SessionState W) (cmd : String) :
    ((run_cli T s cmd).2).ctrl = s.ctrl :=
  miRender_ctrl T s (cliWrap cmd)

theorem run_cli_trace (T : Transport W) (s : SessionState W) (cmd : String) :
    ((run_cli T s cmd).2).trace = s.trace ++ [cliWrap cmd] :=
  miRender_trace T s (cliWrap cmd)

theorem verify_loaded_snd (T : Transport W) (s : SessionState W) :
    (verify_loaded T s).2 = (write_mi T s (cliWrap "info files")).2 := by
  unfold verify_loaded
  rcases h : run_cli T s "info files" with ⟨res, s1⟩
  have h2 : s1 = (write_mi T s (cliWrap "info files")).2 := by
    rw [← run_cli_snd, h]
  cases res with
  | error e => simp [h2]
  | ok out => simp only; split <;> simp [h2]

theorem verify_loaded_ctrl (T : Transport W) (s : SessionState W) :
    ((verify_loaded T s).2).ctrl = s.ctrl := by
  rw [verify_loaded_snd, write_mi_ctrl]

theorem verify_loaded_trace (T : Transport W) (s : SessionState W) :
    ((verify_loaded T s).2).trace = s.trace ++ [cliWrap "info files"] := by
  rw [verify_loaded_snd, write_mi_trace]

theorem setLoaded_exe (s : SessionState W) (b : Bool) :
    (setLoaded s b).ctrl.exe_path = s.ctrl.exe_path := rfl

theorem setLoaded_core (s : SessionState W) (b : Bool) :
    (setLoaded s b).ctrl.core_path = s.ctrl.core_path := rfl

/-! ## Claim theorems -/

/-- C6: `renderText` (`format_responses`) applied to an empty record
sequence, and applied to any record sequence in which no record yields
extractable text, both return exactly the literal string `"(no output)"`;
otherwise it returns the extracted texts joined one per line in emission
order. -/
theorem C6_renderText :
    format_responses ([] : List Record) = "(no output)" ∧
    (∀ rs : List Record, (∀ r ∈ rs, extractLine r = none) →
      format_responses rs = "(no output)") ∧
    (∀ rs : List Record, rs.filterMap extractLine ≠ [] →
      format_responses rs = joinLines (rs.filterMap extractLine)) := by
  refine ⟨rfl, ?_, ?_⟩
  · intro rs h
    unfold format_responses
    simp [List.filterMap_eq_nil_iff.mpr h]
  · intro rs h
    unfold format_responses
    simp [h]

/-- Witness for C6: a record whose message is the empty string yields no
text (placeholder result); two message-bearing records render joined by a
newline. -/
theorem C6_renderText_witness :
    format_responses [msgRecord ""] = "(no output)" ∧
    format_responses [msgRecord "a", msgRecord "b"] =
      joinLines ([msgRecord "a", msgRecord "b"].filterMap extractLine) :=
  ⟨C6_renderText.2.1 [msgRecord ""] (by decide),
   C6_renderText.2.2 [msgRecord "a", msgRecord "b"] (by decide)⟩

/-- C4: `verify_loaded` never raises (its result type is `Bool`, with the
probe exception caught), and it returns `false` exactly when the `info
files` probe raises or its rendered output — stripped and lowercased —
contains one of the markers `no executable file now` / `no symbol file
now`, and `true` in every other case. -/
theorem C4_verifyLoaded (T : Transport W) (s : SessionState W) :
    (verify_loaded T s).1 =
      (match (run_cli T s "info files").1 with
       | .error _ => false
       | .ok out =>
         !(containsPy (pyLower (pyStrip out)) "no executable file now" ||
           containsPy (pyLower (pyStrip out)) "no symbol file now")) := by
  unfold verify_loaded
  rcases h : run_cli T s "info files" with ⟨res, s1⟩
  cases res with
  | error e => simp
  | ok out =>
    simp only
    cases hc : (containsPy (pyLower (pyStrip out)) "no executable file now" ||
        containsPy (pyLower (pyStrip out)) "no symbol file now") <;> simp [hc]

/-- C9: `disassemble_current` and `memory_read` splice the effective count
`max 1 (min count 256)` into the single command they issue — so any count
above 256 acts exactly like 256 and any count below 1 exactly like 1
(silent clamping: the command is still issued, nothing is rejected), and
the Python default arguments 32 and 16 pass through unclamped. -/
theorem C9_countClamp (T : Transport W) (s : SessionState W) :
    (∀ count : Int,
      ((disassemble_current T s count).2).trace =
        s.trace ++ [cliWrap ("x/" ++ toString (max 1 (min count 256)) ++ "i $pc")]) ∧
    (∀ addr fmt (count : Int),
      ((memory_read T s addr count fmt).2).trace =
        s.trace ++
          [cliWrap ("x/" ++ toString (max 1 (min count 256)) ++ pyStrip fmt ++ " " ++ addr)]) ∧
    (∀ count : Int, 256 < count →
      disassemble_current T s count = disassemble_current T s 256) ∧
    (∀ count : Int, count < 1 →
      disassemble_current T s count = disassemble_current T s 1) ∧
    (∀ addr fmt (count : Int), 256 < count →
      memory_read T s addr count fmt = memory_read T s addr 256 fmt) ∧
    (∀ addr fmt (count : Int), count < 1 →
      memory_read T s addr count fmt = memory_read T s addr 1 fmt) ∧
    ((disassemble_current T s 32).2).trace = s.trace ++ [cliWrap "x/32i $pc"] ∧
    ((memory_read T s "$sp" 16 "bx").2).trace = s.trace ++ [cliWrap "x/16bx $sp"] := by
  have hd : ∀ count : Int,
      ((disassemble_current T s count).2).trace =
        s.trace ++ [cliWrap ("x/" ++ toString (max 1 (min count 256)) ++ "i $pc")] := by
    intro count
    unfold disassemble_current
    exact run_cli_trace T s _
  have hm : ∀ addr fmt (count : Int),
      ((memory_read T s addr count fmt).2).trace =
        s.trace ++
          [cliWrap ("x/" ++ toString (max 1 (min count 256)) ++ pyStrip fmt ++ " " ++ addr)] := by
    intro addr fmt count
    unfold memory_read
    exact run_cli_trace T s _
  refine ⟨hd, hm, ?_, ?_, ?_, ?_, ?_, ?_⟩
  · intro count hc
    unfold disassemble_current
    have h1 : max 1 (min count 256) = 256 := by omega
    rw [h1]; norm_num
  · intro count hc
    unfold disassemble_current
    have h1 : max 1 (min count 256) = 1 := by omega
    rw [h1]; norm_num
  · intro addr fmt count hc
    unfold memory_read
    have h1 : max 1 (min count 256) = 256 := by omega
    rw [h1]; norm_num
  · intro addr fmt count hc
    unfold memory_read
    have h1 : max 1 (min count 256) = 1 := by omega
    rw [h1]; norm_num
  · simpa using hd 32
  · simpa using hm "$sp" "bx" 16

/-- Witness for C9: count 1000 is clamped to 256 and count `-3` up to 1 on
a concrete session. -/
theorem C9_countClamp_witness :
    disassemble_current T0 aFresh.sess 1000 = disassemble_current T0 aFresh.sess 256 ∧
    memory_read T0 aFresh.sess "$sp" (-3) "bx" = memory_read T0 aFresh.sess "$sp" 1 "bx" :=
  ⟨(C9_countClamp T0 aFresh.sess).2.2.1 1000 (by decide),
   (C9_countClamp T0 aFresh.sess).2.2.2.2.2.1 "$sp" "bx" (-3) (by decide)⟩

theorem write_mi_snd_eq {T : Transport W} {s s1 : SessionState W} {cmd : String}
    {r : Except String (List Record)} (h : write_mi T s cmd = (r, s1)) :
    s1.ctrl = s.ctrl := by
  have h2 := congrArg Prod.snd h
  simp at h2
  rw [← h2, write_mi_ctrl]

theorem stack_list_frames_ctrl (T : Transport W) (s : SessionState W)
    (tid : Option Int) : ((stack_list_frames T s tid).2).ctrl = s.ctrl := by
  unfold stack_list_frames
  split
  · split
    next e s1 h => simpa using write_mi_snd_eq h
    next out1 s1 h1 =>
      split
      next e s2 h2 =>
        simpa using (write_mi_snd_eq h2).trans (write_mi_snd_eq h1)
      next out2 s2 h2 =>
        simpa using (write_mi_snd_eq h2).trans (write_mi_snd_eq h1)
  · split
    next e s1 h => simpa using write_mi_snd_eq h
    next out s1 h => simpa using write_mi_snd_eq h

theorem get_signal_summary_ctrl (T : Transport W) (s : SessionState W) :
    ((get_signal_summary T s).2).ctrl = s.ctrl := by
  unfold get_signal_summary write_cli
  split
  next e s1 h => simpa using write_mi_snd_eq h
  next out1 s1 h1 =>
    split
    next e s2 h2 =>
      simpa using (write_mi_snd_eq h2).trans (write_mi_snd_eq h1)
    next out2 s2 h2 =>
      simpa using (write_mi_snd_eq h2).trans (write_mi_snd_eq h1)

/-- `load_core` records both paths in the final state on every outcome,
including when one of the binding commands raises. -/
theorem load_core_paths (T : Transport W) (s : SessionState W)
    (e c : String) :
    ((load_core T s e c).2).ctrl.exe_path = some e ∧
    ((load_core T s e c).2).ctrl.core_path = some c := by
  simp only [load_core]
  split
  next er s1 h => simp [write_mi_snd_eq h, recordPaths]
  next out1 s1 h1 =>
    split
    next er s2 h2 => simp [write_mi_snd_eq h2, write_mi_snd_eq h1, recordPaths]
    next out2 s2 h2 =>
      simp [setLoaded_exe, setLoaded_core, verify_loaded_ctrl,
        write_mi_snd_eq h2, write_mi_snd_eq h1, recordPaths]

/-- `reapply_target` never changes the recorded paths. -/
theorem reapply_target_paths (T : Transport W) (s : SessionState W) :
    ((reapply_target T s).2).ctrl.exe_path = s.ctrl.exe_path ∧
    ((reapply_target T s).2).ctrl.core_path = s.ctrl.core_path := by
  unfold reapply_target
  split
  next e c he hc =>
    split
    · simp
    · split
      next er s1 h1 => simp [write_mi_snd_eq h1]
      next out1 s1 h1 =>
        split
        next er s2 h2 => simp [write_mi_snd_eq h2, write_mi_snd_eq h1]
        next out2 s2 h2 =>
          simp [setLoaded_exe, setLoaded_core, verify_loaded_ctrl,
            write_mi_snd_eq h2, write_mi_snd_eq h1]
  next h => simp

/-- Recording paths that are already recorded is a no-op. -/
theorem recordPaths_self (s : SessionState W) (e c : String)
    (he : s.ctrl.exe_path = some e) (hc : s.ctrl.core_path = some c) :
    recordPaths s e c = s := by
  rcases s with ⟨⟨l, ep, cp⟩, w, tr⟩
  simp only [recordPaths]
  simp only at he hc
  rw [← he, ← hc]

/-- C5: `load_core` records both supplied paths in the session state
unconditionally — the final state carries them whether the binding commands
succeed or raise; no controller operation ever resets a recorded
executable/core path back to the unset state; and in the successful case
the `loaded` flag of the final state is taken from a fresh `verify_loaded`
call performed after the two binding commands. -/
theorem C5_pathsRecorded (T : Transport W) (s : SessionState W)
    (e c : String) :
    ((load_core T s e c).2).ctrl.exe_path = some e ∧
    ((load_core T s e c).2).ctrl.core_path = some c ∧
    (∀ (op : Op) (s1 : SessionState W),
      s1.ctrl.exe_path ≠ none → s1.ctrl.core_path ≠ none →
      (runOp T op s1).ctrl.exe_path ≠ none ∧
      (runOp T op s1).ctrl.core_path ≠ none) ∧
    (∀ out1 s1 out2 s2,
      write_mi T (recordPaths s e c) ("-file-exec-and-symbols " ++ e) =
        (.ok out1, s1) →
      write_mi T s1 ("-target-select core " ++ c) = (.ok out2, s2) →
      load_core T s e c =
        (.ok (format_responses (out1 ++ out2)),
         setLoaded (verify_loaded T s2).2 (verify_loaded T s2).1)) := by
  have hpres : ∀ (op : Op) (s1 : SessionState W),
      ((runOp T op s1).ctrl.exe_path = s1.ctrl.exe_path ∧
       (runOp T op s1).ctrl.core_path = s1.ctrl.core_path) ∨
      ∃ e0 c0, op = Op.loadCore e0 c0 := by
    intro op s1
    cases op
    case loadCore e0 c0 => exact Or.inr ⟨e0, c0, rfl⟩
    case reapplyTargetOp =>
      exact Or.inl ⟨by simpa [runOp] using (reapply_target_paths T s1).1,
                    by simpa [runOp] using (reapply_target_paths T s1).2⟩
    all_goals
      refine Or.inl ⟨?_, ?_⟩ <;>
        simp [runOp, write_cli, thread_info, stack_list_locals, print_expr,
          select_thread, select_frame, get_registers, disassemble_current,
          memory_read, info_files, info_sharedlibrary, bt_full, info_args,
          info_locals, quit, miRender_ctrl, run_cli_ctrl, write_mi_ctrl,
          verify_loaded_ctrl, stack_list_frames_ctrl, get_signal_summary_ctrl]
  refine ⟨(load_core_paths T s e c).1, (load_core_paths T s e c).2, ?_, ?_⟩
  · intro op s1 h1 h2
    rcases hpres op s1 with ⟨hx, hy⟩ | ⟨e0, c0, rfl⟩
    · exact ⟨hx ▸ h1, hy ▸ h2⟩
    · refine ⟨?_, ?_⟩ <;> simp [runOp, (load_core_paths T s1 e0 c0).1,
        (load_core_paths T s1 e0 c0).2]
  · intro out1 s1 out2 s2 h1 h2
    simp only [load_core]
    rw [h1]
    dsimp only
    rw [h2]

/-- Witness for C5: on a healthy transport and fresh session, both paths
are recorded, `thread_info` preserves them, and `loaded` is set from the
post-bind verification. -/
theorem C5_pathsRecorded_witness :
    ((load_core T0 aFresh.sess "/bin/app" "/tmp/core.1234").2).ctrl.exe_path =
      some "/bin/app" ∧
    (runOp T0 Op.threadInfo
        (load_core T0 aFresh.sess "/bin/app" "/tmp/core.1234").2).ctrl.exe_path ≠
      none ∧
    (runOp T0 Op.threadInfo
        (load_core T0 aFresh.sess "/bin/app" "/tmp/core.1234").2).ctrl.core_path ≠
      none :=
  ⟨(C5_pathsRecorded T0 aFresh.sess "/bin/app" "/tmp/core.1234").1,
   (C5_pathsRecorded T0 aFresh.sess "/bin/app" "/tmp/core.1234").2.2.1
     Op.threadInfo (load_core T0 aFresh.sess "/bin/app" "/tmp/core.1234").2
     (by decide) (by decide)⟩

/-- C7: when no (non-empty) executable or core path is recorded,
`reapply_target` returns the literal nothing-to-reapply message and leaves
the entire session state — `loaded` flag, recorded paths, transport world
and submission trace — untouched; when both paths are recorded it is
exactly `load_core` replayed on the recorded paths (same two binding
commands, same output, same `loaded` update).  (Following Python
truthiness, an empty-string path counts as not recorded.) -/
theorem C7_reapplyBehaviour (T : Transport W) (s : SessionState W) :
    ((s.ctrl.exe_path = none ∨ s.ctrl.exe_path = some "" ∨
      s.ctrl.core_path = none ∨ s.ctrl.core_path = some "") →
      reapply_target T s = (.ok "(no recorded exe/core to reapply)", s)) ∧
    (∀ e c, s.ctrl.exe_path = some e → e ≠ "" →
      s.ctrl.core_path = some c → c ≠ "" →
      reapply_target T s = load_core T s e c) := by
  constructor
  · intro h
    unfold reapply_target
    rcases he : s.ctrl.exe_path with _ | e <;>
      rcases hc : s.ctrl.core_path with _ | c
    · simp
    · simp
    · simp
    · rw [he, hc] at h
      have hb : e = "" ∨ c = "" := by
        rcases h with h | h | h | h <;> simp_all
      have hbb : (e = "" || c = "") = true := by
        rcases hb with h1 | h1 <;> simp [h1]
      simp [hbb]
  · intro e c he hne hc hnc
    unfold reapply_target
    rw [he, hc]
    simp only [load_core, recordPaths_self s e c he hc]
    simp [hne, hnc]

/-- Witness for C7: a fresh session has nothing to reapply; with both paths
recorded, `reapply_target` coincides with `load_core` on those paths. -/
theorem C7_reapplyBehaviour_witness :
    reapply_target T0 aFresh.sess =
      (.ok "(no recorded exe/core to reapply)", aFresh.sess) ∧
    reapply_target Tlost aLoaded.sess =
      load_core Tlost aLoaded.sess "/bin/app" "/tmp/core.1234" :=
  ⟨(C7_reapplyBehaviour T0 aFresh.sess).1 (Or.inl (by decide)),
   (C7_reapplyBehaviour Tlost aLoaded.sess).2 "/bin/app" "/tmp/core.1234"
     (by decide) (by decide) (by decide) (by decide)⟩

/-! ## Behaviour of the context gate and the safety wrapper -/

/-- Gate, healthy path: flag set and verification passes — return `""`
after the single probe. -/
theorem ensure_loaded_healthy (T : Transport W) (a : AgentState W)
    (hl : a.sess.ctrl.loaded = true) (hv : (verify_loaded T a.sess).1 = true) :
    ensure_loaded T a = (.ok "", ⟨(verify_loaded T a.sess).2, a.log⟩) := by
  unfold ensure_loaded
  simp [hl, hv]

/-- Gate, hopeless path: flag unset and no usable recorded paths — return
the instructional message, touching nothing. -/
theorem ensure_loaded_noPaths (T : Transport W) (a : AgentState W)
    (hl : a.sess.ctrl.loaded = false)
    (hp : (pathTruthy a.sess.ctrl.exe_path &&
           pathTruthy a.sess.ctrl.core_path) = false) :
    ensure_loaded T a = (.ok notLoadedMsg, a) := by
  unfold ensure_loaded
  simp [hl, hp]

/-- Gate, stale-true path with non-raising reapply: the probe fails while
the flag is set, so one `reapply_target` runs on the post-probe state, a
`[restore]` event is emitted, and the gate returns `""` regardless of the
reapply's outcome. -/
theorem ensure_loaded_stale_ok (T : Transport W) (a : AgentState W)
    (r : String) (s1 : SessionState W)
    (hl : a.sess.ctrl.loaded = true) (hv : (verify_loaded T a.sess).1 = false)
    (hr : reapply_target T (verify_loaded T a.sess).2 = (.ok r, s1)) :
    ensure_loaded T a = (.ok "", ⟨s1, a.log ++ [restoreEvent r]⟩) := by
  unfold ensure_loaded
  simp [hl, hv, hr]

/-- Gate, stale-true path with raising reapply: the exception propagates. -/
theorem ensure_loaded_stale_err (T : Transport W) (a : AgentState W)
    (e : String) (s1 : SessionState W)
    (hl : a.sess.ctrl.loaded = true) (hv : (verify_loaded T a.sess).1 = false)
    (hr : reapply_target T (verify_loaded T a.sess).2 = (.error e, s1)) :
    ensure_loaded T a = (.error e, ⟨s1, a.log⟩) := by
  unfold ensure_loaded
  simp [hl, hv, hr]

/-- `_safe_call` never propagates an exception of the wrapped call. -/
theorem safe_call_isOk (tag : String)
    (fn : SessionState W → Except String String × SessionState W)
    (a : AgentState W) : ∃ out a2, safe_call tag fn a = (.ok out, a2) := by
  unfold safe_call
  split
  next out s1 h => exact ⟨_, _, rfl⟩
  next e s1 h => exact ⟨_, _, rfl⟩

/-- `_safe_call`, exception: one `[error]` event, inline error text. -/
theorem safe_call_err (tag : String)
    (fn : SessionState W → Except String String × SessionState W)
    (a : AgentState W) (e : String) (s1 : SessionState W)
    (h : fn a.sess = (.error e, s1)) :
    safe_call tag fn a =
      (.ok ("(error: " ++ e ++ ")"), ⟨s1, a.log ++ [errorEvent e]⟩) := by
  unfold safe_call
  rw [h]

/-- Every `_safe_call`-wrapped gated tool reduces, once the gate returns
`""`, to `_safe_call` of its tag and body. -/
theorem gated_safe_tool_eq (T : Transport W) (t : Tool)
    (a a1 : AgentState W) (hs : safeTool t = true)
    (hg : ensure_loaded T a = (.ok "", a1)) :
    runTool T t a = safe_call (toolTag t) (fun s => toolBody T t s) a1 := by
  cases t
  case loadCoreT e c => exact absurd hs (by simp [safeTool])
  case runGdbT cmd => exact absurd hs (by simp [safeTool])
  case backtraceT tid => exact absurd hs (by simp [safeTool])
  case listLocalsT => exact absurd hs (by simp [safeTool])
  all_goals
    simp only [runTool, tool_select_thread, tool_select_frame,
      tool_registers, tool_disassemble, tool_memory_read, tool_info_files,
      tool_sharedlibs, tool_bt_full, tool_info_args, tool_info_locals,
      tool_thread_info, toolTag, toolBody]
  all_goals rw [hg]
  all_goals simp

/-- Every gated tool returns the gate's message unchanged when the gate
does not return `""`, with no further state change and no event. -/
theorem gated_tool_msg (T : Transport W) (t : Tool) (a a1 : AgentState W)
    (msg : String) (hgt : gatedTool t = true)
    (hg : ensure_loaded T a = (.ok msg, a1)) (hm : msg ≠ "") :
    runTool T t a = (.ok msg, a1) := by
  cases t
  case loadCoreT e c => exact absurd hgt (by simp [gatedTool])
  all_goals
    simp only [runTool, tool_run_gdb, tool_bt, tool_locals,
      tool_select_thread, tool_select_frame, tool_registers,
      tool_disassemble, tool_memory_read, tool_info_files, tool_sharedlibs,
      tool_bt_full, tool_info_args, tool_info_locals, tool_thread_info]
  all_goals rw [hg]
  all_goals simp [hm]

/-- A `_safe_call`-wrapped tool is gated. -/
theorem safeTool_gated (t : Tool) (hs : safeTool t = true) :
    gatedTool t = true := by
  cases t <;> simp_all [safeTool, gatedTool]

/-- C1, counterexample to "issues no command to the Transport": with a
loaded and verified context, the blocked invocation `run_gdb "quit"` does
submit one command to the transport — the context gate's read-only
`info files` verification probe — even though the refusal is returned. -/
theorem C1_probeStillIssued :
    (tool_run_gdb T0 aLoaded "quit").1 = .ok blockedMsg ∧
    ((tool_run_gdb T0 aLoaded "quit").2).sess.trace = [cliWrap "info files"] := by
  decide

/-- C1 (amended): for every raw command whose stripped, lowercased text
starts with a denylisted token, `tool_run_gdb` invoked on a loaded,
verified context returns the fixed refusal message, emits the `[blocked]`
event, and never forwards the raw command: the only command submitted to
the transport during the invocation is the gate's `info files` probe — in
particular `" Quit"`, `"QUIT now"` and `"runner"` are all rejected. -/
theorem C1_denylistBlocks (T : Transport W) (a : AgentState W) (cmd : String)
    (hl : a.sess.ctrl.loaded = true) (hv : (verify_loaded T a.sess).1 = true)
    (hb : isBlockedCmd cmd = true) :
    tool_run_gdb T a cmd =
      (.ok blockedMsg,
       ⟨(verify_loaded T a.sess).2, a.log ++ [blockedEvent cmd]⟩) ∧
    ((tool_run_gdb T a cmd).2).sess.trace =
      a.sess.trace ++ [cliWrap "info files"] ∧
    isBlockedCmd " Quit" = true ∧ isBlockedCmd "QUIT now" = true ∧
    isBlockedCmd "runner" = true := by
  have h1 := ensure_loaded_healthy T a hl hv
  have h2 : tool_run_gdb T a cmd =
      (.ok blockedMsg,
       ⟨(verify_loaded T a.sess).2, a.log ++ [blockedEvent cmd]⟩) := by
    unfold tool_run_gdb
    rw [h1]
    simp [hb]
  refine ⟨h2, ?_, by decide, by decide, by decide⟩
  rw [h2]
  simpa using verify_loaded_trace T a.sess

/-- Witness for C1 (amended): concrete rejection of `"QUIT now"` on a
healthy loaded session. -/
theorem C1_denylistBlocks_witness :
    tool_run_gdb T0 aLoaded "QUIT now" =
      (.ok blockedMsg,
       ⟨(verify_loaded T0 aLoaded.sess).2, aLoaded.log ++ [blockedEvent "QUIT now"]⟩) ∧
    ((tool_run_gdb T0 aLoaded "QUIT now").2).sess.trace =
      aLoaded.sess.trace ++ [cliWrap "info files"] ∧
    isBlockedCmd " Quit" = true ∧ isBlockedCmd "QUIT now" = true ∧
    isBlockedCmd "runner" = true :=
  C1_denylistBlocks T0 aLoaded "QUIT now" (by decide) (by decide) (by decide)

/-- C10: in `tool_run_gdb` the context gate runs before the denylist: for
any denylisted command, a session that is not loaded and has no recorded
paths gets the instructional not-loaded message back — not the refusal —
with no `[blocked]` event (the log is untouched) and no command submitted
to the transport (the whole agent state is returned unchanged). -/
theorem C10_gateBeforeDenylist (T : Transport W) (a : AgentState W)
    (cmd : String) (hl : a.sess.ctrl.loaded = false)
    (he : a.sess.ctrl.exe_path = none) (hc : a.sess.ctrl.core_path = none)
    (hb : isBlockedCmd cmd = true) :
    tool_run_gdb T a cmd = (.ok notLoadedMsg, a) ∧
    ((tool_run_gdb T a cmd).2).sess.trace = a.sess.trace ∧
    ((tool_run_gdb T a cmd).2).log = a.log := by
  have h1 := ensure_loaded_noPaths T a hl (by simp [he, pathTruthy])
  have h2 : tool_run_gdb T a cmd = (.ok notLoadedMsg, a) := by
    unfold tool_run_gdb
    rw [h1]
    dsimp only
    rw [if_pos (show notLoadedMsg ≠ "" by decide)]
  exact ⟨h2, by rw [h2], by rw [h2]⟩

/-- Witness for C10: `run_gdb "quit"` on a fresh session over a dead
transport returns the instructional message without any transport
traffic. -/
theorem C10_gateBeforeDenylist_witness :
    tool_run_gdb Terr aFresh "quit" = (.ok notLoadedMsg, aFresh) ∧
    ((tool_run_gdb Terr aFresh "quit").2).sess.trace = aFresh.sess.trace ∧
    ((tool_run_gdb Terr aFresh "quit").2).log = aFresh.log :=
  C10_gateBeforeDenylist Terr aFresh "quit" (by decide) (by decide)
    (by decide) (by decide)

/-- C2, counterexample to "its return value is determined by a verification
performed after that reapply": on a transport whose target is lost for
good, the gate (stale `loaded`, failing verification) reapplies once and
still returns the empty string — the success signal — even though the
post-reapply verification failed (and recorded `loaded = false`). -/
theorem C2_returnsEmptyDespiteFailedReapply :
    (ensure_loaded Tlost aLoaded).1 = .ok "" ∧
    ((ensure_loaded Tlost aLoaded).2).sess.ctrl.loaded = false ∧
    (verify_loaded Tlost ((ensure_loaded Tlost aLoaded).2).sess).1 = false := by
  decide

/-- C2 (amended): whenever the cached `loaded` flag is true but the
verification probe fails, `_ensure_loaded` performs exactly one
`reapply_target` on the post-probe state — whose recorded paths are those
previously recorded — emits one `[restore]` event, and then returns the
empty string unconditionally (when the reapply raises, the exception
propagates); the post-reapply verification inside `reapply_target`
refreshes only the cached `loaded` flag, not the return value. -/
theorem C2_staleReapplyOnce (T : Transport W) (a : AgentState W)
    (hl : a.sess.ctrl.loaded = true)
    (hv : (verify_loaded T a.sess).1 = false) :
    (∀ r s1, reapply_target T ((verify_loaded T a.sess).2) = (.ok r, s1) →
      ensure_loaded T a = (.ok "", ⟨s1, a.log ++ [restoreEvent r]⟩)) ∧
    (∀ e s1, reapply_target T ((verify_loaded T a.sess).2) = (.error e, s1) →
      ensure_loaded T a = (.error e, ⟨s1, a.log⟩)) ∧
    ((verify_loaded T a.sess).2).ctrl.exe_path = a.sess.ctrl.exe_path ∧
    ((verify_loaded T a.sess).2).ctrl.core_path = a.sess.ctrl.core_path ∧
    ((verify_loaded T a.sess).2).trace = a.sess.trace ++ [cliWrap "info files"] :=
  ⟨fun r s1 hr => ensure_loaded_stale_ok T a r s1 hl hv hr,
   fun e s1 hr => ensure_loaded_stale_err T a e s1 hl hv hr,
   congrArg GDBController.exe_path (verify_loaded_ctrl T a.sess),
   congrArg GDBController.core_path (verify_loaded_ctrl T a.sess),
   verify_loaded_trace T a.sess⟩

/-- Witness for C2 (amended): the lost-target session reapplies once (two
binding commands between the two probes), logs one `[restore]` event, and
returns `""`. -/
theorem C2_staleReapplyOnce_witness :
    ensure_loaded Tlost aLoaded =
      (.ok "",
       ⟨⟨⟨false, some "/bin/app", some "/tmp/core.1234"⟩, (),
         [cliWrap "info files", "-file-exec-and-symbols /bin/app",
          "-target-select core /tmp/core.1234", cliWrap "info files"]⟩,
        [restoreEvent ("No executable file now." ++ "\n" ++
          "No executable file now.")]⟩) :=
  (C2_staleReapplyOnce Tlost aLoaded (by decide) (by decide)).1
    ("No executable file now." ++ "\n" ++ "No executable file now.")
    ⟨⟨false, some "/bin/app", some "/tmp/core.1234"⟩, (),
     [cliWrap "info files", "-file-exec-and-symbols /bin/app",
      "-target-select core /tmp/core.1234", cliWrap "info files"]⟩
    (by decide)

/-- C3, counterexample to "any exception is caught at the operation
boundary": `tool_load_core` calls `load_core` directly, so a transport
exception propagates to the caller instead of becoming an inline
`(error: …)` result. -/
theorem C3_loadCorePropagates :
    (tool_load_core Terr aFresh "/bin/app" "/tmp/core.1234").1 =
      .error "boom" := by
  decide

/-- C3 (amended): exceptions raised by the controller call are caught,
logged as `[error]`, and converted to an inline `(error: …)` result exactly
for the tools routed through `_safe_call` (selectThread, selectFrame,
registers, disassemble, readMemory, listMappedFiles, listSharedLibraries,
backtraceFull, listArgs, info-locals, thread listing) — such a tool never
propagates an exception of its body; `load_core`, `run_gdb`, `backtrace`
and `list_locals` call the controller directly and propagate its
exceptions to the caller. -/
theorem C3_exceptionBoundary (T : Transport W) :
    (∀ (t : Tool) (a : AgentState W), safeTool t = true →
      (∀ e a1, ensure_loaded T a ≠ (.error e, a1)) →
      ∃ out a2, runTool T t a = (.ok out, a2)) ∧
    (∀ (t : Tool) (a a1 : AgentState W) (e : String) (s1 : SessionState W),
      safeTool t = true → ensure_loaded T a = (.ok "", a1) →
      toolBody T t a1.sess = (.error e, s1) →
      runTool T t a =
        (.ok ("(error: " ++ e ++ ")"), ⟨s1, a1.log ++ [errorEvent e]⟩)) ∧
    (∀ (a : AgentState W) (exe core e : String) (s1 : SessionState W),
      load_core T a.sess exe core = (.error e, s1) →
      runTool T (Tool.loadCoreT exe core) a = (.error e, ⟨s1, a.log⟩)) ∧
    (∀ (a a1 : AgentState W) (cmd e : String) (s1 : SessionState W),
      ensure_loaded T a = (.ok "", a1) → isBlockedCmd cmd = false →
      run_cli T a1.sess cmd = (.error e, s1) →
      runTool T (Tool.runGdbT cmd) a = (.error e, ⟨s1, a1.log⟩)) ∧
    (∀ (a a1 : AgentState W) (tid : Int) (e : String) (s1 : SessionState W),
      ensure_loaded T a = (.ok "", a1) →
      stack_list_frames T a1.sess (some tid) = (.error e, s1) →
      runTool T (Tool.backtraceT tid) a = (.error e, ⟨s1, a1.log⟩)) ∧
    (∀ (a a1 : AgentState W) (e : String) (s1 : SessionState W),
      ensure_loaded T a = (.ok "", a1) →
      stack_list_locals T a1.sess true = (.error e, s1) →
      runTool T Tool.listLocalsT a = (.error e, ⟨s1, a1.log⟩)) := by
  refine ⟨?_, ?_, ?_, ?_, ?_, ?_⟩
  · intro t a hs hne
    rcases hg : ensure_loaded T a with ⟨res, a1⟩
    cases res with
    | error e => exact absurd hg (hne e a1)
    | ok msg =>
      by_cases hm : msg = ""
      · subst hm
        rw [gated_safe_tool_eq T t a a1 hs hg]
        exact safe_call_isOk _ _ _
      · exact ⟨msg, a1, gated_tool_msg T t a a1 msg (safeTool_gated t hs) hg hm⟩
  · intro t a a1 e s1 hs hg hb
    rw [gated_safe_tool_eq T t a a1 hs hg]
    exact safe_call_err _ _ _ _ _ hb
  · intro a exe core e s1 h
    simp only [runTool, tool_load_core]
    rw [h]
  · intro a a1 cmd e s1 hg hb h
    simp only [runTool, tool_run_gdb]
    rw [hg]
    dsimp only
    rw [if_neg (show ¬("" ≠ "") by simp), if_neg (by simp [hb])]
    rw [h]
  · intro a a1 tid e s1 hg h
    simp only [runTool, tool_bt]
    rw [hg]
    dsimp only
    rw [if_neg (show ¬("" ≠ "") by simp)]
    rw [h]
  · intro a a1 e s1 hg h
    simp only [runTool, tool_locals]
    rw [hg]
    dsimp only
    rw [if_neg (show ¬("" ≠ "") by simp)]
    rw [h]

/-- Witness for C3 (amended): over the dead transport, the wrapped
`select_thread` tool converts the raised `boom` into an inline error with
one `[error]` event. -/
theorem C3_exceptionBoundary_witness :
    runTool Terr (Tool.selectThreadT 1) aLoadedNoPaths =
      (.ok ("(error: " ++ "boom" ++ ")"),
       ⟨⟨⟨true, none, none⟩, (),
         [cliWrap "info files", "-thread-select " ++ toString (1 : Int)]⟩,
        [restoreEvent "(no recorded exe/core to reapply)",
         errorEvent "boom"]⟩) :=
  (C3_exceptionBoundary Terr).2.1 (Tool.selectThreadT 1) aLoadedNoPaths
    ⟨⟨⟨true, none, none⟩, (), [cliWrap "info files"]⟩,
     [restoreEvent "(no recorded exe/core to reapply)"]⟩
    "boom"
    ⟨⟨true, none, none⟩, (),
     [cliWrap "info files", "-thread-select " ++ toString (1 : Int)]⟩
    (by decide) (by decide) (by decide)

end AIGDB
